import Mathlib

/-!
# Verification of the MiDaS depth-estimation server

Shallow embedding of `src/server/model-midas/app.py` (a Flask server exposing
`POST /predict`, which decodes an uploaded image, lazily loads the MiDaS
network from `torch.hub`, runs a forward pass, resizes the prediction back to
the input dimensions, normalizes it to 8-bit, and returns it as a PNG).

Modelling conventions:
* Python floats are modelled as rationals (`ℚ`); decimal literals such as
  `1e-6` are taken at their decimal value.
* numpy / torch arrays are modelled as flat row-major lists together with an
  explicit shape (`Tensor`).
* The external collaborators (the torch hub model, its companion transform,
  PIL decoding) are opaque parameters; their documented contracts that the
  application relies on are recorded at each definition below.
* The process-wide globals `model` and `transform` of `app.py` become an
  explicit `State`, threaded through `load_model` and `predict`.  Two ghost
  counters record how many times each `torch.hub.load` call was performed.
-/

/-- A Python exception as observed by the `except Exception as e` handler of
`predict`: its class name (e.g. `UnidentifiedImageError`, `RuntimeError`) and
its message `str(e)`. -/
structure PyException where
  kind : String
  msg : String
deriving DecidableEq

/-- PIL color modes a decoded upload can have. -/
inductive PMode
  | L
  | P
  | RGB
  | RGBA
  | CMYK
  | I
  | F
deriving DecidableEq

/-- A decoded PIL image as produced by `Image.open`: a color mode and pixel
dimensions.  Pixel contents are not modelled because downstream they are
consumed only by the opaque model transform. -/
structure PILImage where
  mode : PMode
  width : Nat
  height : Nat
deriving DecidableEq

/-- The RGB raster produced by `.convert('RGB')` on line 32 of `app.py`. -/
structure RGBImage where
  width : Nat
  height : Nat
deriving DecidableEq

/-- Model of the PIL library contract for `convert('RGB')`: it is total on
every decodable mode (grayscale, palette, RGBA, CMYK, ...) and yields an RGB
raster of the same dimensions.  The per-mode pixel formula is internal to PIL
and is never observed by this application, whose transform is opaque. -/
def convertRGB (im : PILImage) : RGBImage :=
  ⟨im.width, im.height⟩

/-- An HTTP request to `/predict`: its multipart file fields.  Each `image`
entry carries the outcome of decoding its bytes with `Image.open` — `error`
exactly when the bytes cannot be decoded as an image at all. -/
structure Request where
  files : List (String × Except PyException PILImage)

/-- A torch/numpy array: shape and row-major flat data. -/
structure Tensor where
  shape : List Nat
  data : List ℚ
deriving DecidableEq

/-- The loaded depth network: maps the preprocessed input batch to the raw
prediction, or fails (an inference failure such as device memory
exhaustion). -/
abbrev Net := Tensor → Except PyException Tensor

/-- The companion preprocessing transform supplied with the network
(`midas_transforms.small_transform`). -/
abbrev Transform := RGBImage → Tensor

/-- The Model Provider (`torch.hub`): the outcomes of
`torch.hub.load("intel-isl/MiDaS", "MiDaS_small")` and
`torch.hub.load("intel-isl/MiDaS", "transforms")`. -/
structure Provider where
  loadNet : Except PyException Net
  loadTransforms : Except PyException Transform

/-- The process-wide mutable globals of `app.py` (lines 11-12), plus ghost
counters of how many times each `torch.hub.load` call actually ran. -/
structure State where
  model : Option Net
  transform : Option Transform
  netLoads : Nat
  transformLoads : Nat

/-- Process start: `model = None`, `transform = None`, nothing loaded yet. -/
def initState : State :=
  ⟨none, none, 0, 0⟩

/-- Embedding of `load_model` (lines 14-24 of `app.py`).  The early return
checks only `model`; a load failure is surfaced as the raised exception in the
second component.  Note the source assigns `model` (line 19) before it assigns
`transform` (line 24): a failure of the second hub load leaves `model` set and
`transform` still `None`. -/
def load_model (p : Provider) (s : State) : State × Option PyException :=
  match s.model with
  | some _ => (s, none)
  | none =>
    match p.loadNet with
    | .error e => (s, some e)
    | .ok netf =>
      let s1 : State :=
        { s with model := some netf, netLoads := s.netLoads + 1 }
      match p.loadTransforms with
      | .error e => (s1, some e)
      | .ok trf =>
        ({ s1 with transform := some trf,
                   transformLoads := s1.transformLoads + 1 }, none)

/-- The epsilon of the normalization guard on line 45 of `app.py`. -/
def eps : ℚ :=
  1 / 1000000

/-- Model of `pred.min()` (numpy reduction over all elements); the empty case
is never consulted because `predict` raises on a zero-size array first. -/
def npMin : List ℚ → ℚ
  | [] => 0
  | x :: xs => xs.foldl min x

/-- Model of `pred.max()`. -/
def npMax : List ℚ → ℚ
  | [] => 0
  | x :: xs => xs.foldl max x

/-- Model of `astype('uint8')` on a nonnegative float: C truncation toward
zero (floor on the values in range here) reduced modulo 256. -/
def toUint8 (v : ℚ) : Nat :=
  (Int.toNat ⌊v⌋) % 256

/-- The normalization step of `predict` (lines 44-48): rescale to `[0, 1]`
when `maxv - minv > 1e-6`, otherwise multiply everything by zero. -/
def normalizeDepth (pred : List ℚ) : List ℚ :=
  let minv := npMin pred
  let maxv := npMax pred
  if maxv - minv > eps then
    pred.map (fun v => (v - minv) / (maxv - minv))
  else
    pred.map (fun v => v * 0)

/-- Line 49 of `app.py`: `(norm * 255.0).astype('uint8')`. -/
def toDepthBytes (norm : List ℚ) : List Nat :=
  norm.map (fun v => toUint8 (v * 255))

/-- `tensor.unsqueeze(0)`: prepend a dimension of size one. -/
def unsqueeze0 (t : Tensor) : Tensor :=
  ⟨1 :: t.shape, t.data⟩

/-- `tensor.unsqueeze(1)`: insert a dimension of size one at position one. -/
def unsqueeze1 (t : Tensor) : Tensor :=
  match t.shape with
  | [] => ⟨[1], t.data⟩
  | d :: ds => ⟨d :: 1 :: ds, t.data⟩

/-- `tensor.squeeze()` with no argument: remove every dimension of size one
(torch documented semantics); the row-major data is unchanged. -/
def squeeze (t : Tensor) : Tensor :=
  ⟨t.shape.filter (fun d => d != 1), t.data⟩

/-- Value resampling of one 2-D block to the target size.  The precise
bicubic kernel of `torch.nn.functional.interpolate` is external library
behavior; the claims quantify over the post-resize prediction, so only the
output size contract matters.  We use an executable index-mapping stand-in
that honors that contract. -/
def resample2d (h0 w0 h w : Nat) (block : List ℚ) : List ℚ :=
  ((List.range h).map (fun i =>
    (List.range w).map (fun j =>
      block.getD (i * h0 / h * w0 + j * w0 / w) 0))).flatten

/-- Model of `torch.nn.functional.interpolate(x, size=(h, w), mode='bicubic',
align_corners=False)` on an N-C-H-W tensor: the two trailing (spatial)
dimensions are replaced by the requested size; leading dimensions are kept. -/
def interpolate (t : Tensor) (h w : Nat) : Tensor :=
  let n := t.shape.length
  let lead := t.shape.take (n - 2)
  let h0 := t.shape.getD (n - 2) 0
  let w0 := t.shape.getD (n - 1) 0
  ⟨lead ++ [h, w],
    ((List.range lead.prod).map (fun b =>
      resample2d h0 w0 h w (t.data.drop (b * (h0 * w0))))).flatten⟩

/-- The PNG image produced by `pil.save(buf, format='PNG')`. -/
structure PngImage where
  width : Nat
  height : Nat
  channels : Nat
  data : List Nat
deriving DecidableEq

/-- Model of `PIL.Image.fromarray` on a `uint8` array, per the PIL source:
the mode is inferred from the trailing shape (a 1-D or 2-D `uint8` array maps
to single-channel mode `L`); the image size is `(1, shape[0])` — width one —
for a 1-D array and `(shape[1], shape[0])` for a 2-D array; a 0-D array
raises an `IndexError` at the size computation.  Three or more dimensions
cannot arise from this pipeline (the squeezed tensor has at most two
non-unit dimensions), and are mapped to an error. -/
def fromarray (shape : List Nat) (bytes : List Nat) : Except String PngImage :=
  match shape with
  | [] => .error "tuple index out of range"
  | [n] => .ok ⟨1, n, 1, bytes⟩
  | [r, c] => .ok ⟨c, r, 1, bytes⟩
  | _ => .error "too many dimensions"

/-- An HTTP response body: a PNG (`send_file(buf, mimetype='image/png')`) or
a JSON error object (`jsonify({"error": msg})`, braces omitted here). -/
inductive Body
  | png (img : PngImage)
  | jsonErr (msg : String)
deriving DecidableEq

/-- An HTTP response: status code and body. -/
structure Response where
  status : Nat
  body : Body
deriving DecidableEq

/-- Lines 55-56 of `app.py`: `return jsonify({"error": str(e)}), 500`.  Only
the message survives; the exception class is discarded. -/
def handle_exception (e : PyException) : Response :=
  ⟨500, .jsonErr e.msg⟩

/-- Whether a body is a JSON error object. -/
def isJsonErr : Body → Bool
  | .jsonErr _ => true
  | .png _ => false

/-- Whether a body is a PNG image. -/
def isPng : Body → Bool
  | .png _ => true
  | .jsonErr _ => false

/-- The (width, height) of the image in a response, when it carries one. -/
def respImageSize (r : Response) : Option (Nat × Nat) :=
  match r.body with
  | .png i => some (i.width, i.height)
  | .jsonErr _ => none

/-- The inference part of `predict` (lines 34-53), after the image is decoded
and `load_model` has returned: apply the transform (a `TypeError` if it is
still `None`), run the network (`model(input_batch)`), resize the prediction
to `img.size[::-1]` (height, width), squeeze, normalize, and encode.  The
device moves on lines 35-37 and `torch.no_grad()` have no observable effect
here.  A zero-size prediction raises inside `pred.min()` as in numpy. -/
def runInference (s : State) (img : RGBImage) : Response :=
  match s.transform with
  | none => ⟨500, .jsonErr "NoneType object is not callable"⟩
  | some trf =>
    let input_batch := unsqueeze0 (trf img)
    match s.model with
    | none => ⟨500, .jsonErr "NoneType object is not callable"⟩
    | some netf =>
      match netf input_batch with
      | .error e => handle_exception e
      | .ok prediction =>
        let resized := interpolate (unsqueeze1 prediction) img.height img.width
        let sq := squeeze resized
        let pred := sq.data
        if pred.isEmpty then
          ⟨500, .jsonErr "zero-size array to reduction operation minimum"⟩
        else
          let depth_img := toDepthBytes (normalizeDepth pred)
          match fromarray sq.shape depth_img with
          | .error m => ⟨500, .jsonErr m⟩
          | .ok pil => ⟨200, .png pil⟩

/-- Embedding of the `predict` endpoint (lines 26-56): return 400 when the
`image` field is absent; otherwise decode, lazily load the model, run
inference; any exception is converted by the catch-all handler into a 500
JSON error. -/
def predict (p : Provider) (s : State) (req : Request) : State × Response :=
  match req.files.lookup "image" with
  | none =>
    (s, ⟨400, .jsonErr "no image field (use multipart form field named image)"⟩)
  | some upload =>
    match upload with
    | .error e => (s, handle_exception e)
    | .ok pim =>
      let img := convertRGB pim
      match load_model p s with
      | (s2, some e) => (s2, handle_exception e)
      | (s2, none) => (s2, runInference s2 img)

/-- N sequential invocations of the endpoint with the same request. -/
def predictN (p : Provider) (req : Request) : Nat → State → State
  | 0, s => s
  | n + 1, s => predictN p req n (predict p s req).1

/-- Shared state for the fine-grained concurrent model of `load_model`: the
two globals (their contents abstracted to `Unit`, since the race concerns
their presence, not their value) and the two ghost load counters. -/
structure SState where
  model : Option Unit
  transform : Option Unit
  netLoads : Nat
  transformLoads : Nat
deriving DecidableEq

/-- One request-handling thread: a program counter over the statements of
`load_model` followed by the first use of `transform` in `predict`, and a
flag recording whether that use observed `transform = None`. -/
structure ThreadSt where
  pc : Nat
  sawNoneTransform : Bool
deriving DecidableEq

/-- One atomic step of a thread, one Python statement per step, mirroring the
source exactly — there is no lock anywhere in `load_model`:
pc 0 = `if model is not None: return` (line 16-17; on a loaded model the
thread skips straight to using the transform);
pc 1 = `model = torch.hub.load(...)` (line 19, load and publish the network);
pc 2 = `transform = midas_transforms.small_transform` (lines 23-24);
pc 3 = `input_batch = transform(img)...` (line 34, the first read of
`transform` after `load_model` returns). -/
def loadStep (s : SState) (t : ThreadSt) : SState × ThreadSt :=
  match t.pc with
  | 0 =>
    if s.model.isSome then (s, { t with pc := 3 }) else (s, { t with pc := 1 })
  | 1 =>
    ({ s with model := some (), netLoads := s.netLoads + 1 }, { t with pc := 2 })
  | 2 =>
    ({ s with transform := some (), transformLoads := s.transformLoads + 1 },
      { t with pc := 3 })
  | 3 =>
    (s, { t with pc := 4, sawNoneTransform := s.transform.isNone })
  | _ => (s, t)

/-- Run an interleaving: the schedule names, at each step, the thread that
executes its next atomic statement. -/
def runSched : List Nat → SState × List ThreadSt → SState × List ThreadSt
  | [], c => c
  | i :: rest, (s, ts) =>
    match ts[i]? with
    | none => runSched rest (s, ts)
    | some t =>
      let st := loadStep s t
      runSched rest (st.1, ts.set i st.2)

/-- Two request threads against a cold (unloaded) process. -/
def coldConfig : SState × List ThreadSt :=
  (⟨none, none, 0, 0⟩, [⟨0, false⟩, ⟨0, false⟩])

/-- A network stand-in: its raw prediction has shape (1, 3, 3), modelling a
batch of one single-channel map at the internal working resolution. -/
def demoNet : Net :=
  fun _ => .ok ⟨[1, 3, 3], List.replicate 9 0⟩

/-- A transform stand-in (the preprocessed tensor is consumed opaquely). -/
def demoTransform : Transform :=
  fun _ => ⟨[3, 256, 256], []⟩

/-- A provider whose two hub loads both succeed. -/
def demoProvider : Provider :=
  ⟨.ok demoNet, .ok demoTransform⟩

/-- A provider whose first hub load (the network) fails. -/
def netFailProvider : Provider :=
  ⟨.error ⟨"RuntimeError", "hub download failed"⟩, .ok demoTransform⟩

/-- A provider whose network load succeeds but whose transforms load fails. -/
def trFailProvider : Provider :=
  ⟨.ok demoNet, .error ⟨"RuntimeError", "transforms download failed"⟩⟩

/-- A provider parameterized by the exception its network load raises. -/
def provNetFail (k m : String) : Provider :=
  ⟨.error ⟨k, m⟩, .ok demoTransform⟩

/-- A provider whose loads succeed but whose forward pass raises. -/
def provInfFail (k m : String) : Provider :=
  ⟨.ok (fun _ => .error ⟨k, m⟩), .ok demoTransform⟩

/-- A request carrying the given upload in the `image` field. -/
def reqWithUpload (u : Except PyException PILImage) : Request :=
  ⟨[("image", u)]⟩

/-- A decoded 4-by-4 RGB upload. -/
def pim4 : PILImage :=
  ⟨PMode.RGB, 4, 4⟩

/-- A request with a well-formed 4-by-4 image. -/
def req4x4 : Request :=
  reqWithUpload (.ok pim4)

/-- A request with a decoded image of width 2 and height 1. -/
def req2x1 : Request :=
  reqWithUpload (.ok ⟨PMode.RGB, 2, 1⟩)

/-- A request with no `image` field at all. -/
def reqNoField : Request :=
  ⟨[]⟩

/-- A request whose upload bytes cannot be decoded, raising the given
exception inside `Image.open`. -/
def reqDecodeErr (k m : String) : Request :=
  reqWithUpload (.error ⟨k, m⟩)

/-- Folding `min` over a list only ever lowers the accumulator. -/
theorem foldl_min_le_init (xs : List ℚ) (a : ℚ) : xs.foldl min a ≤ a := by
  induction xs generalizing a with
  | nil => exact le_refl a
  | cons x xs ih => exact le_trans (ih (min a x)) (min_le_left a x)

/-- The `min`-fold is a lower bound for every traversed element. -/
theorem foldl_min_le_mem (xs : List ℚ) (a : ℚ) {v : ℚ} (hv : v ∈ xs) :
    xs.foldl min a ≤ v := by
  induction xs generalizing a with
  | nil => cases hv
  | cons x xs ih =>
    rcases List.mem_cons.mp hv with h | h
    · subst h
      exact le_trans (foldl_min_le_init xs (min a v)) (min_le_right a v)
    · exact ih (min a x) h

/-- `pred.min()` is a lower bound for every element. -/
theorem npMin_le_mem {l : List ℚ} {v : ℚ} (hv : v ∈ l) : npMin l ≤ v := by
  cases l with
  | nil => cases hv
  | cons x xs =>
    rcases List.mem_cons.mp hv with h | h
    · subst h
      exact foldl_min_le_init xs v
    · exact foldl_min_le_mem xs x h

/-- Folding `max` over a list only ever raises the accumulator. -/
theorem le_foldl_max_init (xs : List ℚ) (a : ℚ) : a ≤ xs.foldl max a := by
  induction xs generalizing a with
  | nil => exact le_refl a
  | cons x xs ih => exact le_trans (le_max_left a x) (ih (max a x))

/-- The `max`-fold is an upper bound for every traversed element. -/
theorem mem_le_foldl_max (xs : List ℚ) (a : ℚ) {v : ℚ} (hv : v ∈ xs) :
    v ≤ xs.foldl max a := by
  induction xs generalizing a with
  | nil => cases hv
  | cons x xs ih =>
    rcases List.mem_cons.mp hv with h | h
    · subst h
      exact le_trans (le_max_right a v) (le_foldl_max_init xs (max a v))
    · exact ih (max a x) h

/-- `pred.max()` is an upper bound for every element. -/
theorem mem_le_npMax {l : List ℚ} {v : ℚ} (hv : v ∈ l) : v ≤ npMax l := by
  cases l with
  | nil => cases hv
  | cons x xs =>
    rcases List.mem_cons.mp hv with h | h
    · subst h
      exact le_foldl_max_init xs v
    · exact mem_le_foldl_max xs x h

/-- Reading a mapped list at an in-range index with any defaults. -/
theorem getD_map_of_lt {α β : Type} (f : α → β) (l : List α) {i : Nat}
    (h : i < l.length) (d : β) (d2 : α) : (l.map f).getD i d = f (l.getD i d2) := by
  rw [List.getD_eq_getElem (l.map f) d (by simpa using h), List.getElem_map,
    List.getD_eq_getElem l d2 h]

/-- An in-range `getD` read is a member of the list. -/
theorem getD_mem_of_lt {α : Type} (l : List α) {i : Nat} (h : i < l.length)
    (d : α) : l.getD i d ∈ l := by
  rw [List.getD_eq_getElem l d h]
  exact List.getElem_mem h

/-- The rescale branch of the normalization (line 45-46 of `app.py`). -/
theorem normalizeDepth_pos {pred : List ℚ} (h : eps < npMax pred - npMin pred) :
    normalizeDepth pred =
      pred.map (fun v => (v - npMin pred) / (npMax pred - npMin pred)) := by
  unfold normalizeDepth
  rw [if_pos h]

/-- The degenerate branch of the normalization (line 48 of `app.py`). -/
theorem normalizeDepth_nonpos {pred : List ℚ}
    (h : ¬ eps < npMax pred - npMin pred) :
    normalizeDepth pred = pred.map (fun v => v * 0) := by
  unfold normalizeDepth
  rw [if_neg h]

/-- Multiplying every element by zero yields the all-zero list. -/
theorem map_mul_zero (l : List ℚ) : l.map (fun v => v * 0) = List.replicate l.length 0 := by
  induction l with
  | nil => rfl
  | cons x xs ih => simp [List.replicate, ih]

/-- The 8-bit conversion sends zero to zero. -/
theorem toUint8_zero_mul : toUint8 (0 * 255) = 0 := by
  norm_num [toUint8]

/-- Encoding the all-zero map gives all-zero bytes. -/
theorem toDepthBytes_replicate (n : Nat) :
    toDepthBytes (List.replicate n 0) = List.replicate n 0 := by
  unfold toDepthBytes
  rw [List.map_replicate, toUint8_zero_mul]

/-- The 8-bit conversion is monotone on the normalized range `[0, 1]`. -/
theorem toUint8_mono {x y : ℚ} (hx : 0 ≤ x) (hy : y ≤ 1) (hxy : x ≤ y) :
    toUint8 (x * 255) ≤ toUint8 (y * 255) := by
  have h255 : x * 255 ≤ y * 255 := mul_le_mul_of_nonneg_right hxy (by norm_num)
  have hf : ⌊x * 255⌋ ≤ ⌊y * 255⌋ := Int.floor_le_floor h255
  have hx0 : (0 : Int) ≤ ⌊x * 255⌋ :=
    Int.floor_nonneg.mpr (mul_nonneg hx (by norm_num))
  have hyb : ⌊y * 255⌋ ≤ 255 := by
    have hle : y * 255 ≤ 255 := by nlinarith
    calc ⌊y * 255⌋ ≤ ⌊(255 : ℚ)⌋ := Int.floor_le_floor hle
    _ = 255 := by norm_num
  have hxn : Int.toNat ⌊x * 255⌋ ≤ Int.toNat ⌊y * 255⌋ := Int.toNat_le_toNat hf
  have hyn : Int.toNat ⌊y * 255⌋ ≤ 255 := by omega
  unfold toUint8
  rw [Nat.mod_eq_of_lt (by omega), Nat.mod_eq_of_lt (by omega)]
  exact hxn

/-- C1: the claim states that for every valid input image of width W and
height H the returned Depth Map has exactly dimensions W-by-H and one
channel.  The code violates this: for a width-2, height-1 input,
`prediction.squeeze()` removes the size-one spatial dimension along with the
two batch dimensions, the depth array becomes one-dimensional of length 2,
and `Image.fromarray` encodes it as a width-1, height-2 PNG — the transpose
of the required 2-by-1 — which the endpoint returns with status 200. -/
theorem predict_collapses_unit_height_dims :
    respImageSize (predict demoProvider initState req2x1).2 = some (1, 2) ∧
    (predict demoProvider initState req2x1).2.status = 200 ∧
    (some (1, 2) : Option (Nat × Nat)) ≠ some (2, 1) :=
  ⟨rfl, rfl, by decide⟩

/-- C5: the claim states that a mutual-exclusion guard around the
load-and-publish sequence makes concurrent first-requests perform exactly one
load with no partially-initialized observation.  `load_model` has no lock:
in the first interleaving both threads pass the `model is not None` check
before either assigns, so the network is hub-loaded twice; in the second,
thread 1 runs after thread 0 published `model` but before it assigned
`transform`, skips the load, and then reads `transform = None`. -/
theorem load_model_race_duplicate_and_partial :
    (runSched [0, 1, 0, 1, 0, 1, 0, 1] coldConfig).1.netLoads = 2 ∧
    ((runSched [0, 0, 1, 1] coldConfig).2.getD 1 ⟨0, false⟩).sawNoneTransform = true :=
  ⟨rfl, rfl⟩

/-- C6 counterexample: when the network hub-load succeeds but the transforms
hub-load fails, the state is not left as if unloaded — `model` stays set with
`transform` still `None` — and the next `load_model` call returns immediately
without retrying anything (the net-load counter stays at one). -/
theorem load_model_partial_state_persists :
    (load_model trFailProvider initState).1.model.isSome = true ∧
    (load_model trFailProvider initState).1.transform = none ∧
    (load_model trFailProvider initState).1.netLoads = 1 ∧
    load_model trFailProvider (load_model trFailProvider initState).1 =
      ((load_model trFailProvider initState).1, none) :=
  ⟨rfl, rfl, rfl, rfl⟩

/-- C6 as amended: if the load fails during the initial network retrieval
(before line 19 assigns `model`), the state is unchanged — as if unloaded —
and a later request retries the load; but if the network retrieval succeeds
and the transforms retrieval fails, a partially-initialized state persists
(`model` set, `transform` unset) and later `load_model` calls are no-ops that
never retry. -/
theorem load_model_retry_only_before_net_assign
    (p q : Provider) (e e2 : PyException) (nf : Net)
    (hp : p.loadNet = .error e)
    (hq : q.loadNet = .ok nf) (hq2 : q.loadTransforms = .error e2) :
    load_model p initState = (initState, some e) ∧
    (load_model q initState).1.model = some nf ∧
    (load_model q initState).1.transform = none ∧
    load_model q (load_model q initState).1 = ((load_model q initState).1, none) := by
  have h2 : load_model q initState =
      ({ initState with model := some nf, netLoads := 1 }, some e2) := by
    simp [load_model, initState, hq, hq2]
  refine ⟨by simp [load_model, initState, hp], ?_, ?_, ?_⟩
  · rw [h2]
  · rw [h2]
    rfl
  · rw [h2]
    rfl

/-- Closed instance of the amended C6 statement at two concrete providers. -/
theorem load_model_retry_only_before_net_assign_witness :
    netFailProvider.loadNet = Except.error ⟨"RuntimeError", "hub download failed"⟩ ∧
    trFailProvider.loadNet = Except.ok demoNet ∧
    trFailProvider.loadTransforms =
      Except.error ⟨"RuntimeError", "transforms download failed"⟩ ∧
    (load_model netFailProvider initState =
      (initState, some ⟨"RuntimeError", "hub download failed"⟩) ∧
    (load_model trFailProvider initState).1.model = some demoNet ∧
    (load_model trFailProvider initState).1.transform = none ∧
    load_model trFailProvider (load_model trFailProvider initState).1 =
      ((load_model trFailProvider initState).1, none)) :=
  ⟨rfl, rfl, rfl,
    load_model_retry_only_before_net_assign netFailProvider trFailProvider
      ⟨"RuntimeError", "hub download failed"⟩
      ⟨"RuntimeError", "transforms download failed"⟩ demoNet rfl rfl rfl⟩

/-- C7 counterexample: an invalid-image failure (a PIL
`UnidentifiedImageError` while decoding) and an inference failure (a torch
`RuntimeError` in the forward pass) with the same message produce literally
identical responses, so the caller cannot distinguish the failure kinds. -/
theorem errors_not_distinguishable :
    (predict demoProvider initState (reqDecodeErr "UnidentifiedImageError" "boom")).2 =
      (predict (provInfFail "RuntimeError" "boom") initState req4x4).2 :=
  rfl

/-- C7 as amended: every failure kind — malformed upload, model-load failure,
forward-pass failure — is collapsed by the catch-all handler to the single
generic shape HTTP 500 with body `error = str(e)`; the exception class is
discarded, so kinds are distinguishable only by free-text message. -/
theorem errors_uniform_500_json (k1 k2 k3 m : String) :
    (predict demoProvider initState (reqDecodeErr k1 m)).2 = ⟨500, Body.jsonErr m⟩ ∧
    (predict (provNetFail k2 m) initState req4x4).2 = ⟨500, Body.jsonErr m⟩ ∧
    (predict (provInfFail k3 m) initState req4x4).2 = ⟨500, Body.jsonErr m⟩ :=
  ⟨rfl, rfl, rfl⟩

/-- C2: in the normalization step, if the resized prediction satisfies
`max - min ≤ 1e-6` the output map (both the normalized array and the 8-bit
depth bytes) is uniformly zero, the division branch never being taken;
otherwise every value is rescaled to `(value - min) / (max - min)`. -/
theorem normalize_flat_zero_else_rescale (pred : List ℚ) (h : pred ≠ []) :
    (npMax pred - npMin pred ≤ eps →
      normalizeDepth pred = List.replicate pred.length 0 ∧
      toDepthBytes (normalizeDepth pred) = List.replicate pred.length 0) ∧
    (eps < npMax pred - npMin pred →
      normalizeDepth pred =
        pred.map (fun v => (v - npMin pred) / (npMax pred - npMin pred))) := by
  constructor
  · intro hle
    have h1 : normalizeDepth pred = List.replicate pred.length 0 := by
      rw [normalizeDepth_nonpos (not_lt.mpr hle), map_mul_zero]
    exact ⟨h1, by rw [h1, toDepthBytes_replicate]⟩
  · exact normalizeDepth_pos

/-- Closed instance of C2 at the prediction `[0, 1]`. -/
theorem normalize_flat_zero_else_rescale_witness :
    ([0, 1] : List ℚ) ≠ [] ∧
    ((npMax [0, 1] - npMin [0, 1] ≤ eps →
      normalizeDepth [0, 1] = List.replicate ([0, 1] : List ℚ).length 0 ∧
      toDepthBytes (normalizeDepth [0, 1]) = List.replicate ([0, 1] : List ℚ).length 0) ∧
    (eps < npMax [0, 1] - npMin [0, 1] →
      normalizeDepth [0, 1] =
        ([0, 1] : List ℚ).map (fun v => (v - npMin [0, 1]) / (npMax [0, 1] - npMin [0, 1])))) :=
  ⟨by simp, normalize_flat_zero_else_rescale [0, 1] (by simp)⟩

/-- Normalization preserves the array length. -/
theorem normalizeDepth_length (pred : List ℚ) :
    (normalizeDepth pred).length = pred.length := by
  by_cases hc : eps < npMax pred - npMin pred
  · rw [normalizeDepth_pos hc, List.length_map]
  · rw [normalizeDepth_nonpos hc, List.length_map]

/-- Reading the encoded depth bytes at an in-range index. -/
theorem toDepthBytes_getD (l : List ℚ) {i : Nat} (h : i < l.length) :
    (toDepthBytes l).getD i 0 = toUint8 (l.getD i 0 * 255) :=
  getD_map_of_lt _ l h 0 0

/-- C3: normalization is order-preserving — for any two in-range pixel
positions of the post-resize raw prediction, if the raw value at the first is
at most the raw value at the second, then the corresponding 8-bit depth-map
values are in the same (non-strict) order.  The rescale is monotone, the
degenerate branch is constant, and the final floor-to-byte step is monotone
on the normalized range. -/
theorem normalize_order_preserving (pred : List ℚ) (i j : Nat)
    (hi : i < pred.length) (hj : j < pred.length)
    (hord : pred.getD i 0 ≤ pred.getD j 0) :
    (toDepthBytes (normalizeDepth pred)).getD i 0 ≤
      (toDepthBytes (normalizeDepth pred)).getD j 0 := by
  have hlen := normalizeDepth_length pred
  rw [toDepthBytes_getD (normalizeDepth pred) (by omega),
    toDepthBytes_getD (normalizeDepth pred) (by omega)]
  by_cases hc : eps < npMax pred - npMin pred
  · have hpos : 0 < npMax pred - npMin pred := lt_trans (by norm_num [eps]) hc
    rw [normalizeDepth_pos hc,
      getD_map_of_lt (fun v => (v - npMin pred) / (npMax pred - npMin pred)) pred hi 0 0,
      getD_map_of_lt (fun v => (v - npMin pred) / (npMax pred - npMin pred)) pred hj 0 0]
    apply toUint8_mono
    · exact div_nonneg
        (sub_nonneg.mpr (npMin_le_mem (getD_mem_of_lt pred hi 0))) hpos.le
    · exact (div_le_one hpos).mpr
        (sub_le_sub_right (mem_le_npMax (getD_mem_of_lt pred hj 0)) (npMin pred))
    · gcongr
  · rw [normalizeDepth_nonpos hc,
      getD_map_of_lt (fun v => v * 0) pred hi 0 0,
      getD_map_of_lt (fun v => v * 0) pred hj 0 0]
    simp

/-- Closed instance of C3 at the prediction `[0, 1]`, positions 0 and 1. -/
theorem normalize_order_preserving_witness :
    0 < ([0, 1] : List ℚ).length ∧ 1 < ([0, 1] : List ℚ).length ∧
    ([0, 1] : List ℚ).getD 0 0 ≤ ([0, 1] : List ℚ).getD 1 0 ∧
    (toDepthBytes (normalizeDepth [0, 1])).getD 0 0 ≤
      (toDepthBytes (normalizeDepth [0, 1])).getD 1 0 :=
  ⟨by decide, by decide, by simp [List.getD],
    normalize_order_preserving [0, 1] 0 1 (by decide) (by decide)
      (by simp [List.getD])⟩

/-- C9: whenever the post-resize prediction satisfies `max - min > 1e-6`, a
pixel holding the raw minimum maps to depth byte 0 and a pixel holding the
raw maximum maps to depth byte 255, so the depth map spans the full 8-bit
range. -/
theorem normalize_full_range (pred : List ℚ) (i j : Nat)
    (hi : i < pred.length) (hj : j < pred.length)
    (hc : eps < npMax pred - npMin pred)
    (hmin : pred.getD i 0 = npMin pred)
    (hmax : pred.getD j 0 = npMax pred) :
    (toDepthBytes (normalizeDepth pred)).getD i 0 = 0 ∧
    (toDepthBytes (normalizeDepth pred)).getD j 0 = 255 := by
  have hpos : 0 < npMax pred - npMin pred := lt_trans (by norm_num [eps]) hc
  have hlen := normalizeDepth_length pred
  rw [toDepthBytes_getD (normalizeDepth pred) (by omega),
    toDepthBytes_getD (normalizeDepth pred) (by omega), normalizeDepth_pos hc,
    getD_map_of_lt (fun v => (v - npMin pred) / (npMax pred - npMin pred)) pred hi 0 0,
    getD_map_of_lt (fun v => (v - npMin pred) / (npMax pred - npMin pred)) pred hj 0 0,
    hmin, hmax]
  constructor
  · rw [sub_self, zero_div]
    norm_num [toUint8]
  · rw [div_self (ne_of_gt hpos), one_mul]
    unfold toUint8
    rw [show ⌊(255 : ℚ)⌋ = 255 by norm_num]
    decide

/-- Closed instance of C9 at the prediction `[0, 1]`: position 0 holds the
minimum and maps to 0, position 1 holds the maximum and maps to 255. -/
theorem normalize_full_range_witness :
    0 < ([0, 1] : List ℚ).length ∧ 1 < ([0, 1] : List ℚ).length ∧
    eps < npMax [0, 1] - npMin [0, 1] ∧
    ([0, 1] : List ℚ).getD 0 0 = npMin [0, 1] ∧
    ([0, 1] : List ℚ).getD 1 0 = npMax [0, 1] ∧
    ((toDepthBytes (normalizeDepth [0, 1])).getD 0 0 = 0 ∧
     (toDepthBytes (normalizeDepth [0, 1])).getD 1 0 = 255) :=
  ⟨by decide, by decide, by simp [npMax, npMin, eps]; norm_num,
    by simp [npMin, List.getD], by simp [npMax, List.getD],
    normalize_full_range [0, 1] 0 1 (by decide) (by decide)
      (by simp [npMax, npMin, eps]; norm_num)
      (by simp [npMin, List.getD]) (by simp [npMax, List.getD])⟩

/-- Once the model global is set, `predict` never changes the state. -/
theorem predict_state_of_loaded (p : Provider) (s : State) (req : Request)
    (h : s.model.isSome) : (predict p s req).1 = s := by
  obtain ⟨nf, hnf⟩ := Option.isSome_iff_exists.mp h
  cases hlk : req.files.lookup "image" with
  | none => simp [predict, hlk]
  | some up =>
    cases up with
    | error e => simp [predict, hlk]
    | ok pim => simp [predict, hlk, load_model, hnf]

/-- The first successful call loads exactly once and fills both globals. -/
theorem predict_first_load (p : Provider) (nf : Net) (tf : Transform)
    (req : Request) (pim : PILImage)
    (hn : p.loadNet = .ok nf) (ht : p.loadTransforms = .ok tf)
    (him : req.files.lookup "image" = some (.ok pim)) :
    (predict p initState req).1 = ⟨some nf, some tf, 1, 1⟩ := by
  simp [predict, him, load_model, initState, hn, ht]

/-- Iterating `predict` from a loaded state leaves the state unchanged. -/
theorem predictN_of_loaded (p : Provider) (req : Request) :
    ∀ (n : Nat) (s : State), s.model.isSome → predictN p req n s = s := by
  intro n
  induction n with
  | zero => intro s hs; rfl
  | succ k ih =>
    intro s hs
    show predictN p req k (predict p s req).1 = s
    rw [predict_state_of_loaded p s req hs]
    exact ih s hs

/-- C4: invoking the endpoint N times sequentially from the cold state, with
a provider whose loads succeed and a request with a decodable image, performs
exactly one hub load of the network and one of the transform, and after the
first successful load every further `load_model` call is a no-op returning
the state unchanged. -/
theorem load_model_single_load_sequential (p : Provider) (nf : Net)
    (tf : Transform) (req : Request) (pim : PILImage) (N : Nat)
    (hn : p.loadNet = .ok nf) (ht : p.loadTransforms = .ok tf)
    (him : req.files.lookup "image" = some (.ok pim)) (hN : 1 ≤ N) :
    (predictN p req N initState).netLoads = 1 ∧
    (predictN p req N initState).transformLoads = 1 ∧
    load_model p (predictN p req N initState) =
      (predictN p req N initState, none) := by
  obtain ⟨k, rfl⟩ : ∃ k, N = k + 1 := ⟨N - 1, by omega⟩
  have h2 : predictN p req (k + 1) initState = ⟨some nf, some tf, 1, 1⟩ := by
    show predictN p req k (predict p initState req).1 = _
    rw [predict_first_load p nf tf req pim hn ht him]
    exact predictN_of_loaded p req k ⟨some nf, some tf, 1, 1⟩ rfl
  rw [h2]
  exact ⟨rfl, rfl, rfl⟩

/-- Closed instance of C4: three sequential calls from the cold state with
the demo provider perform exactly one load of each artifact. -/
theorem load_model_single_load_sequential_witness :
    demoProvider.loadNet = Except.ok demoNet ∧
    demoProvider.loadTransforms = Except.ok demoTransform ∧
    req4x4.files.lookup "image" = some (Except.ok pim4) ∧ 1 ≤ 3 ∧
    ((predictN demoProvider req4x4 3 initState).netLoads = 1 ∧
     (predictN demoProvider req4x4 3 initState).transformLoads = 1 ∧
     load_model demoProvider (predictN demoProvider req4x4 3 initState) =
       (predictN demoProvider req4x4 3 initState, none)) :=
  ⟨rfl, rfl, rfl, by decide,
    load_model_single_load_sequential demoProvider demoNet demoTransform
      req4x4 pim4 3 rfl rfl rfl (by decide)⟩

/-- Every outcome of the inference stage is a 500 JSON error or a 200 PNG. -/
theorem runInference_shape (s : State) (img : RGBImage) :
    (runInference s img).status = 500 ∧
      isJsonErr (runInference s img).body = true ∨
    (runInference s img).status = 200 ∧
      isPng (runInference s img).body = true := by
  rcases htr : s.transform with _ | trf
  · simp [runInference, htr, isJsonErr]
  · rcases hm : s.model with _ | netf
    · simp [runInference, htr, hm, isJsonErr]
    · rcases hnet : netf (unsqueeze0 (trf img)) with e | prediction
      · simp [runInference, htr, hm, hnet, handle_exception, isJsonErr]
      · by_cases hemp :
            (squeeze (interpolate (unsqueeze1 prediction) img.height img.width)).data.isEmpty = true
        · simp [runInference, htr, hm, hnet, hemp, isJsonErr]
        · simp only [runInference, htr, hm, hnet, hemp, if_false]
          cases hfa : fromarray
              (squeeze (interpolate (unsqueeze1 prediction) img.height img.width)).shape
              (toDepthBytes (normalizeDepth
                (squeeze (interpolate (unsqueeze1 prediction) img.height img.width)).data)) with
          | error m =>
            simp [hfa, isJsonErr]
          | ok pil =>
            simp [hfa, isPng]

/-- C8: the endpoint returns HTTP 400 (with a JSON error body) exactly when
the multipart `image` field is absent; every other failure — malformed image
bytes, model-load failure, inference failure — yields HTTP 500 with a JSON
error body, success yields HTTP 200 with a PNG body, and no other status
occurs. -/
theorem predict_status_mapping (p : Provider) (s : State) (req : Request) :
    ((predict p s req).2.status = 400 ↔ req.files.lookup "image" = none) ∧
    ((predict p s req).2.status ≠ 200 →
      isJsonErr (predict p s req).2.body = true) ∧
    ((predict p s req).2.status = 200 → isPng (predict p s req).2.body = true) ∧
    ((predict p s req).2.status = 200 ∨ (predict p s req).2.status = 400 ∨
      (predict p s req).2.status = 500) := by
  cases hlk : req.files.lookup "image" with
  | none =>
    simp [predict, hlk, isJsonErr]
  | some up =>
    cases up with
    | error e =>
      simp [predict, hlk, handle_exception, isJsonErr]
    | ok pim =>
      rcases hlm : load_model p s with ⟨s2, me⟩
      cases me with
      | some e =>
        simp [predict, hlk, hlm, handle_exception, isJsonErr]
      | none =>
        have hsh := runInference_shape s2 (convertRGB pim)
        rcases hsh with ⟨h5, hj⟩ | ⟨h2, hp2⟩
        · simp [predict, hlk, hlm, h5, hj]
        · simp [predict, hlk, hlm, h2, hp2]

/-- Closed instance of C8 at a request with no `image` field. -/
theorem predict_status_mapping_witness :
    ((predict demoProvider initState reqNoField).2.status = 400 ↔
      reqNoField.files.lookup "image" = none) ∧
    ((predict demoProvider initState reqNoField).2.status ≠ 200 →
      isJsonErr (predict demoProvider initState reqNoField).2.body = true) ∧
    ((predict demoProvider initState reqNoField).2.status = 200 →
      isPng (predict demoProvider initState reqNoField).2.body = true) ∧
    ((predict demoProvider initState reqNoField).2.status = 200 ∨
      (predict demoProvider initState reqNoField).2.status = 400 ∨
      (predict demoProvider initState reqNoField).2.status = 500) :=
  predict_status_mapping demoProvider initState reqNoField

/-- C10: the endpoint accepts any upload whose bytes decode to an image of
any color mode: the response is exactly the one obtained after replacing the
decoded mode by RGB (the unconditional `convert('RGB')` on line 32), so no
RGB precondition is enforced; and an upload whose bytes cannot be decoded at
all is the only decode-related error path, yielding the 500 JSON error
carrying the decoder message. -/
theorem predict_mode_agnostic (p : Provider) (s : State) (im : PILImage)
    (e : PyException) :
    predict p s (reqWithUpload (.ok im)) =
      predict p s (reqWithUpload (.ok ⟨PMode.RGB, im.width, im.height⟩)) ∧
    (predict p s (reqWithUpload (.error e))).2 = ⟨500, Body.jsonErr e.msg⟩ :=
  ⟨rfl, rfl⟩
